import Mathlib

/-!
Shallow embedding of `src/script.js` (Popper Poi street-food site interactions)
and proofs about its event handlers.

The script is an IIFE that caches DOM elements, registers event listeners and
performs two one-time mutations (footer year patch, touch-device shadow).
We model:
  * a `classList` as the ordered token list the DOM maintains;
  * the mobile-menu element's observable state (its `hidden` class membership
    and inline `animation` style) as `MenuState`;
  * the desktop nav links' class lists as `NavState`;
  * the listener registry built during setup, with one tag per handler
    function object, for the sections that add and remove listeners;
  * a whole-page state and an event step function for sequences of events.
-/

namespace PopperPoi

/-- A DOM element's class list (`element.classList`), as an ordered list of
tokens. -/
abbrev ClassList := List String

/-- Model of `classList.contains(c)`. -/
def containsClass (cl : ClassList) (c : String) : Bool :=
  cl.contains c

/-- Model of `classList.add(c)`: appends the token unless it is already present. -/
def addClass (cl : ClassList) (c : String) : ClassList :=
  if cl.contains c then cl else cl ++ [c]

/-- Model of `classList.remove(c)`: removes the token. -/
def removeClass (cl : ClassList) (c : String) : ClassList :=
  cl.filter (fun t => t ≠ c)

/-- Model of `classList.toggle(c)`. -/
def toggleClass (cl : ClassList) (c : String) : ClassList :=
  if cl.contains c then removeClass cl c else addClass cl c

/-- Observable state of the mobile-menu element: its class list and its
inline `style.animation` value. -/
structure MenuState where
  classes : ClassList
  animation : String
deriving DecidableEq, Repr

/-- The animation string the hamburger handler assigns when opening
(src/script.js line 57). -/
def fadeInAnim : String := "fadeIn 0.25s ease"

/-- Hamburger-button click handler body (src/script.js lines 49-61):
toggle `hidden`; if the menu is now visible set the fadeIn animation,
otherwise reset the animation to the empty string.  (The listener is only
attached when both `mobileBtn` and `mobileMenu` exist; presence gating is
modelled at the page level.) -/
def mobileBtnClick (m : MenuState) : MenuState :=
  let cl := toggleClass m.classes "hidden"
  if containsClass cl "hidden" = false then
    { classes := cl, animation := fadeInAnim }
  else
    { classes := cl, animation := "" }

/-- Mobile-nav-link click handler body for a present `mobileMenu`
(src/script.js lines 96-109): add `hidden` and reset the animation. -/
def mobileNavClick (m : MenuState) : MenuState :=
  { classes := addClass m.classes "hidden", animation := "" }

/-- Window resize handler body for a present `mobileMenu`
(src/script.js lines 173-180): when `window.innerWidth >= 768` and the menu
does not have the `hidden` class, add it and reset the animation. -/
def resizeHandler (innerWidth : Nat) (m : MenuState) : MenuState :=
  if 768 ≤ innerWidth then
    if containsClass m.classes "hidden" = false then
      { classes := addClass m.classes "hidden", animation := "" }
    else m
  else m

/-- Menu part of the `DOMContentLoaded` handler for a present `mobileMenu`
(src/script.js lines 225-227): ensure the `hidden` class is present.  Note
that, unlike the other closers, it does not touch the inline animation. -/
def loadInitMenu (m : MenuState) : MenuState :=
  if containsClass m.classes "hidden" = false then
    { m with classes := addClass m.classes "hidden" }
  else m

/-- The state the hamburger handler itself produces: the animation is empty
when the menu is hidden and the fadeIn string when it is visible. -/
def menuConsistent (m : MenuState) : Prop :=
  m.animation = (if containsClass m.classes "hidden" then "" else fadeInAnim)

/-- The invariant of claim C10: whenever the menu carries `hidden`, its
inline animation is the empty string. -/
def menuHiddenNoAnim (m : MenuState) : Prop :=
  containsClass m.classes "hidden" = true → m.animation = ""

/-! ### Desktop navigation links -/

/-- The class lists of the `.nav-link` elements, in document order. -/
abbrev NavState := List ClassList

/-- Model of `removeActiveClass()` (src/script.js lines 71-75): strip `active-nav`
from every desktop nav link. -/
def removeActiveClass (ns : NavState) : NavState :=
  ns.map (fun cl => removeClass cl "active-nav")

/-- Apply `f` to the class list at index `i`, when it exists. -/
def modifyIdx (f : ClassList → ClassList) : Nat → NavState → NavState
  | _, [] => []
  | 0, cl :: rest => f cl :: rest
  | n + 1, cl :: rest => cl :: modifyIdx f n rest

/-- Desktop nav-link click handler on the `i`-th link (src/script.js
lines 81-90): `removeActiveClass()` then `this.classList.add('active-nav')`. -/
def navLinkClick (i : Nat) (ns : NavState) : NavState :=
  modifyIdx (fun cl => addClass cl "active-nav") i (removeActiveClass ns)

/-- Nav part of the `DOMContentLoaded` handler (src/script.js lines 229-234):
if `querySelector('.nav-link[href="#"]')` found the home link (modelled as its
index among the nav links), `removeActiveClass()` then add `active-nav` to it;
otherwise the nav links are untouched. -/
def loadInitNav (home : Option Nat) (ns : NavState) : NavState :=
  match home with
  | some j => modifyIdx (fun cl => addClass cl "active-nav") j (removeActiveClass ns)
  | none => ns

/-- Number of nav links currently carrying `active-nav`. -/
def countActive (ns : NavState) : Nat :=
  ns.countP (fun cl => containsClass cl "active-nav")

/-! ### Listener registry (sections that add and remove listeners) -/

/-- The DOM elements the script attaches listeners to. -/
inductive Elem where
  | mobileBtnE
  | mobileMenuE
  | navLinkE (i : Nat)
  | mobileNavLinkE (i : Nat)
  | deliveryBtnE (i : Nat)
  | heroDivE
  | franchiseBtnE
  | windowE
deriving DecidableEq, Repr

/-- One tag per distinct handler function object in the script.  `freshAnon`
is the anonymous `function() {}` literal of line 206: evaluating a function
literal yields a new closure, reference-equal to no handler registered
earlier, so it carries its own tag. -/
inductive HandlerTag where
  | mobileToggle
  | navActive
  | mobileNavClose
  | deliveryAlert
  | heroShadowMove
  | heroShadowLeave
  | resizeClose
  | franchiseAlert
  | domLoaded
  | freshAnon
deriving DecidableEq, Repr

/-- An entry of the listener registry: `target.addEventListener(eventType,
handler)`. -/
structure Listener where
  target : Elem
  eventType : String
  handlerTag : HandlerTag
deriving DecidableEq, Repr

/-- The DOM environment the script finds at startup: which cached lookups
succeeded, how many elements each `querySelectorAll` returned, the two media
capabilities it probes, and the index of the home link among the nav links
(when `querySelector('.nav-link[href="#"]')` finds it). -/
structure Env where
  mobileBtnPresent : Bool
  mobileMenuPresent : Bool
  navLinkCount : Nat
  mobileNavLinkCount : Nat
  deliveryBtnCount : Nat
  heroPresent : Bool
  footerPresent : Bool
  franchisePresent : Bool
  hoverHover : Bool
  ontouchstart : Bool
  homeLink : Option Nat
deriving DecidableEq, Repr

/-- The listeners registered by the IIFE body, in source order
(sections 2, 3, 4, 5, 7, 8, 10 of src/script.js). -/
def setupListeners (env : Env) : List Listener :=
  (if env.mobileBtnPresent && env.mobileMenuPresent then
    [⟨Elem.mobileBtnE, "click", HandlerTag.mobileToggle⟩] else [])
  ++ (List.range env.navLinkCount).map
      (fun i => ⟨Elem.navLinkE i, "click", HandlerTag.navActive⟩)
  ++ (List.range env.mobileNavLinkCount).map
      (fun i => ⟨Elem.mobileNavLinkE i, "click", HandlerTag.mobileNavClose⟩)
  ++ (List.range env.deliveryBtnCount).map
      (fun i => ⟨Elem.deliveryBtnE i, "click", HandlerTag.deliveryAlert⟩)
  ++ (if env.heroPresent && env.hoverHover then
    [⟨Elem.heroDivE, "mousemove", HandlerTag.heroShadowMove⟩,
     ⟨Elem.heroDivE, "mouseleave", HandlerTag.heroShadowLeave⟩] else [])
  ++ [⟨Elem.windowE, "resize", HandlerTag.resizeClose⟩]
  ++ (if env.franchisePresent then
    [⟨Elem.franchiseBtnE, "click", HandlerTag.franchiseAlert⟩] else [])
  ++ [⟨Elem.windowE, "DOMContentLoaded", HandlerTag.domLoaded⟩]

/-- Model of `target.removeEventListener(eventType, handler)`: drops the entry whose
target, event type and handler object all match. -/
def removeListener (regs : List Listener) (t : Elem) (ev : String)
    (tag : HandlerTag) : List Listener :=
  regs.filter (fun l => !(l.target == t && l.eventType == ev && l.handlerTag == tag))

/-- Section 9 of src/script.js (lines 203-213), registry part: on a touch
device it calls `heroDiv.removeEventListener('mousemove', function() {})`
with a freshly created function literal. -/
def afterTouchBlock (env : Env) (regs : List Listener) : List Listener :=
  if env.ontouchstart && env.heroPresent then
    removeListener regs Elem.heroDivE "mousemove" HandlerTag.freshAnon
  else regs

/-- The registry after the whole IIFE body has run. -/
def finalListeners (env : Env) : List Listener :=
  afterTouchBlock env (setupListeners env)

/-! ### Footer year patch -/

/-- JS `String.prototype.replace` with a string pattern, on character lists:
replace the first (leftmost) occurrence of `pat`, leave everything else —
in particular every later occurrence — unchanged.  (The script's replacement
is a stringified year, which contains no `$`, so JS's `$`-substitution in the
replacement never fires.) -/
def replaceFirstList (pat rep : List Char) : List Char → List Char
  | [] => bif pat.isPrefixOf ([] : List Char) then rep else []
  | c :: cs =>
    bif pat.isPrefixOf (c :: cs) then rep ++ (c :: cs).drop pat.length
    else c :: replaceFirstList pat rep cs

/-- JS `s.replace(pat, rep)` for string `pat` (first occurrence only). -/
def jsReplaceFirst (s pat rep : String) : String :=
  String.mk (replaceFirstList pat.data rep.data s.data)

/-- Section 5 of src/script.js (lines 161-164) for a present footer:
`footerYearSpan.innerHTML = footerYearSpan.innerHTML.replace('2024',
currentYear)`, with the year stringified as JS does for integers. -/
def footerPatch (currentYear : Nat) (html : String) : String :=
  jsReplaceFirst html "2024" (toString currentYear)

/-- Whether `pat` occurs as a contiguous run somewhere in `s` (the scan
`indexOf` performs before `replace` splices). -/
def occursBool (pat : List Char) : List Char → Bool
  | [] => pat.isPrefixOf ([] : List Char)
  | c :: cs => pat.isPrefixOf (c :: cs) || occursBool pat cs

/-! ### Whole-page state and events -/

/-- Inline `box-shadow` of the hero image.  The handlers assign string
values; we record which assignment ran and the offsets interpolated into it
(string rendering of JS numbers is abstracted):
  * `initial`: no inline value set yet;
  * `dynamic x y`: line 143, from mousemove, where the interpolated string is
    built from `8 + x` and `8 + y` with `x = clientX / innerWidth * 10`,
    `y = clientY / innerHeight * 10`;
  * `reset`: line 148, the constant mouseleave string;
  * `touch`: line 211, the constant touch-device string. -/
inductive BoxShadow where
  | initial
  | dynamic (xOffset yOffset : ℚ)
  | reset
  | touch
deriving DecidableEq, Repr

/-- The parts of the DOM the script ever mutates. -/
structure PageState where
  menu : MenuState
  nav : NavState
  footerHTML : String
  heroShadow : BoxShadow
deriving DecidableEq, Repr

/-- Browser events whose listeners the script registers.  `heroMousemove`
carries the cursor position and the window dimensions read by the handler. -/
inductive Event where
  | hamburgerClick
  | mobileNavLinkClick (i : Nat)
  | navClick (i : Nat)
  | deliveryClick (i : Nat)
  | franchiseClick
  | heroMousemove (clientX clientY innerWidth innerHeight : ℚ)
  | heroMouseleave
  | resize (w : Nat)
  | domContentLoaded
deriving DecidableEq, Repr

/-- Effect of one event on the page: the handler runs when its listener was
registered (presence and capability guards from setup) and its own body
guards pass.  The delivery and franchise handlers only call `alert`, and
mutate nothing. -/
def pageStep (env : Env) : Event → PageState → PageState
  | Event.hamburgerClick, s =>
    if env.mobileBtnPresent && env.mobileMenuPresent then
      { s with menu := mobileBtnClick s.menu }
    else s
  | Event.mobileNavLinkClick i, s =>
    if i < env.mobileNavLinkCount ∧ env.mobileMenuPresent = true then
      { s with menu := mobileNavClick s.menu }
    else s
  | Event.navClick i, s =>
    if i < env.navLinkCount then { s with nav := navLinkClick i s.nav } else s
  | Event.deliveryClick _, s => s
  | Event.franchiseClick, s => s
  | Event.heroMousemove cx cy iw ih, s =>
    if env.heroPresent && env.hoverHover then
      { s with heroShadow := BoxShadow.dynamic (cx / iw * 10) (cy / ih * 10) }
    else s
  | Event.heroMouseleave, s =>
    if env.heroPresent && env.hoverHover then
      { s with heroShadow := BoxShadow.reset }
    else s
  | Event.resize w, s =>
    if env.mobileMenuPresent then { s with menu := resizeHandler w s.menu } else s
  | Event.domContentLoaded, s =>
    { s with
      menu := if env.mobileMenuPresent then loadInitMenu s.menu else s.menu,
      nav := loadInitNav env.homeLink s.nav }

/-- Run a sequence of events. -/
def runEvents (env : Env) (evs : List Event) (s : PageState) : PageState :=
  evs.foldl (fun s e => pageStep env e s) s

/-- The one-time state mutations of the IIFE body, in source order:
section 5 (footer year patch, lines 161-164, guarded by the footer lookup)
then section 9 (touch-device shadow simplification, lines 203-213, guarded
by `'ontouchstart' in window` and the hero lookup). -/
def setupState (env : Env) (currentYear : Nat) (s : PageState) : PageState :=
  let s1 :=
    if env.footerPresent then
      { s with footerHTML := footerPatch currentYear s.footerHTML }
    else s
  if env.ontouchstart && env.heroPresent then
    { s1 with heroShadow := BoxShadow.touch }
  else s1

/-! ### Menu-only event sequences (claim C10) -/

/-- The four operations that write the mobile menu element. -/
inductive MenuEvent where
  | hamburger
  | navClose
  | resizeW (w : Nat)
  | domInit
deriving DecidableEq, Repr

/-- Effect of one menu event on the (present) menu element. -/
def menuStep : MenuEvent → MenuState → MenuState
  | MenuEvent.hamburger, m => mobileBtnClick m
  | MenuEvent.navClose, m => mobileNavClick m
  | MenuEvent.resizeW w, m => resizeHandler w m
  | MenuEvent.domInit, m => loadInitMenu m

/-- Run a sequence of menu events. -/
def runMenu (evs : List MenuEvent) (m : MenuState) : MenuState :=
  evs.foldl (fun m e => menuStep e m) m

/-! ### Concrete instances used by counterexamples and witnesses -/

/-- A fully populated page environment: every lookup succeeds, four nav
links (Home is index 0), four mobile nav links, three delivery buttons,
hover capability, no touch. -/
def envAll : Env :=
  { mobileBtnPresent := true
    mobileMenuPresent := true
    navLinkCount := 4
    mobileNavLinkCount := 4
    deliveryBtnCount := 3
    heroPresent := true
    footerPresent := true
    franchisePresent := true
    hoverHover := true
    ontouchstart := false
    homeLink := some 0 }

/-- An environment where every guarded lookup fails. -/
def envNone : Env :=
  { mobileBtnPresent := false
    mobileMenuPresent := false
    navLinkCount := 0
    mobileNavLinkCount := 0
    deliveryBtnCount := 0
    heroPresent := false
    footerPresent := false
    franchisePresent := false
    hoverHover := false
    ontouchstart := true
    homeLink := none }

/-- A concrete pre-setup page: menu hidden with empty animation, Home link
active, footer still carrying the static 2024 year, no inline hero shadow. -/
def page0 : PageState :=
  { menu := { classes := ["mobile-menu", "hidden"], animation := "" }
    nav := [["nav-link", "active-nav"], ["nav-link"], ["nav-link"], ["nav-link"]]
    footerHTML := "Copyright 2024 Popper Poi"
    heroShadow := BoxShadow.initial }

/-! ### Basic class-list lemmas -/

theorem not_mem_removeClass (cl : ClassList) (c : String) :
    c ∉ removeClass cl c := by
  simp [removeClass]

theorem containsClass_removeClass (cl : ClassList) (c : String) :
    containsClass (removeClass cl c) c = false := by
  simp [containsClass, not_mem_removeClass cl c]

theorem containsClass_addClass (cl : ClassList) (c : String) :
    containsClass (addClass cl c) c = true := by
  by_cases h : c ∈ cl
  · simp [addClass, containsClass, h]
  · simp [addClass, containsClass, h]

theorem containsClass_toggleClass (cl : ClassList) (c : String) :
    containsClass (toggleClass cl c) c = !containsClass cl c := by
  by_cases h : c ∈ cl
  · simp [toggleClass, h, containsClass, not_mem_removeClass cl c]
  · simp [toggleClass, addClass, h, containsClass]

theorem addClass_addClass (cl : ClassList) (c : String) :
    addClass (addClass cl c) c = addClass cl c := by
  by_cases h : c ∈ cl
  · simp [addClass, h]
  · simp [addClass, h]

/-! ### Hamburger-click lemmas -/

theorem mobileBtnClick_classes (m : MenuState) :
    (mobileBtnClick m).classes = toggleClass m.classes "hidden" := by
  simp only [mobileBtnClick]
  split <;> rfl

theorem containsClass_mobileBtnClick (m : MenuState) :
    containsClass (mobileBtnClick m).classes "hidden"
      = !containsClass m.classes "hidden" := by
  rw [mobileBtnClick_classes, containsClass_toggleClass]

theorem mobileBtnClick_animation (m : MenuState) :
    (mobileBtnClick m).animation
      = (if containsClass (mobileBtnClick m).classes "hidden" then "" else fadeInAnim) := by
  simp only [mobileBtnClick]
  split <;> rename_i h <;> simp_all [mobileBtnClick_classes]

theorem mobileBtnClick_consistent (m : MenuState) :
    menuConsistent (mobileBtnClick m) :=
  mobileBtnClick_animation m

theorem mobileBtnClick_twice_mem (m : MenuState) :
    containsClass (mobileBtnClick (mobileBtnClick m)).classes "hidden"
      = containsClass m.classes "hidden" := by
  rw [containsClass_mobileBtnClick, containsClass_mobileBtnClick, Bool.not_not]

theorem mobileBtnClick_twice_anim (m : MenuState) (h : menuConsistent m) :
    (mobileBtnClick (mobileBtnClick m)).animation = m.animation := by
  rw [mobileBtnClick_animation, mobileBtnClick_twice_mem, h]

/-- C2 (counterexample): the double-toggle identity fails on a starting
state whose inline animation is a value the handler never assigns: starting
from a hidden menu with animation `"bounce"`, two hamburger clicks leave the
animation empty, not `"bounce"`. -/
theorem hamburgerDoubleClickCounterexample :
    (mobileBtnClick (mobileBtnClick { classes := ["hidden"], animation := "bounce" })).animation = ""
      ∧ ("" : String) ≠ "bounce" := by
  constructor
  · rfl
  · decide

/-- C2 (amended): firing the hamburger click handler twice restores the
menu's `hidden` class membership from every starting state; it also restores
the inline animation style provided the starting animation is the value the
handler itself maintains (empty when hidden, the fadeIn string when
visible). -/
theorem hamburgerDoubleClickRestores (m : MenuState) :
    containsClass (mobileBtnClick (mobileBtnClick m)).classes "hidden"
        = containsClass m.classes "hidden"
      ∧ (menuConsistent m →
          (mobileBtnClick (mobileBtnClick m)).animation = m.animation) :=
  ⟨mobileBtnClick_twice_mem m, mobileBtnClick_twice_anim m⟩

/-- Witness for `hamburgerDoubleClickRestores` at the hidden, empty-animation
menu. -/
theorem hamburgerDoubleClickRestores_witness :
    containsClass (mobileBtnClick (mobileBtnClick { classes := ["hidden"], animation := "" })).classes "hidden"
        = containsClass ({ classes := ["hidden"], animation := "" } : MenuState).classes "hidden"
      ∧ (mobileBtnClick (mobileBtnClick { classes := ["hidden"], animation := "" })).animation
        = ({ classes := ["hidden"], animation := "" } : MenuState).animation :=
  ⟨(hamburgerDoubleClickRestores { classes := ["hidden"], animation := "" }).1,
   (hamburgerDoubleClickRestores { classes := ["hidden"], animation := "" }).2 rfl⟩

/-- C7: clicking any mobile nav link closes the menu: from every prior menu
state the handler leaves the `hidden` class present and the inline animation
empty, and running the handler a second time changes nothing. -/
theorem mobileNavClickCloses (m : MenuState) :
    containsClass (mobileNavClick m).classes "hidden" = true
      ∧ (mobileNavClick m).animation = ""
      ∧ mobileNavClick (mobileNavClick m) = mobileNavClick m := by
  refine ⟨containsClass_addClass m.classes "hidden", rfl, ?_⟩
  simp [mobileNavClick, addClass_addClass]

/-! ### Resize handler (claim C4) -/

/-- C4 (counterexample): the resize handler is not governed by a strict
comparison with the 768px breakpoint, and it does not always clear the
animation when the width is large: at width exactly 768 it closes an open
menu even though 768 is not strictly greater than 768, and at width 800 it
leaves a hidden menu's non-empty animation in place. -/
theorem resizeCounterexample :
    containsClass (resizeHandler 768 { classes := ["mobile-menu"], animation := fadeInAnim }).classes "hidden" = true
      ∧ ¬ (768 > 768)
      ∧ (resizeHandler 800 { classes := ["hidden"], animation := "bounce" }).animation = "bounce" := by
  refine ⟨rfl, ?_, rfl⟩
  decide

/-- C4 (amended): the resize handler closes the menu (adds `hidden` and
clears the inline animation) exactly when the width is at least 768 and the
menu does not already carry `hidden`; in every other case it leaves the menu
untouched.  Consequently the menu carries `hidden` afterwards exactly when
the width is at least 768 or it already carried it. -/
theorem resizeCharacterization (w : Nat) (m : MenuState) :
    resizeHandler w m
        = (if 768 ≤ w ∧ containsClass m.classes "hidden" = false then
            { classes := addClass m.classes "hidden", animation := "" }
          else m)
      ∧ containsClass (resizeHandler w m).classes "hidden"
        = (decide (768 ≤ w) || containsClass m.classes "hidden") := by
  by_cases h1 : 768 ≤ w
  · by_cases h2 : containsClass m.classes "hidden" = false
    · simp [resizeHandler, h1, h2, containsClass_addClass]
    · simp only [Bool.not_eq_false] at h2
      simp [resizeHandler, h1, h2]
  · have h1' : ¬ (768 ≤ w) := h1
    simp [resizeHandler, h1']

/-! ### Menu invariant under event sequences (claim C10) -/

theorem menuHiddenNoAnim_mobileBtnClick (m : MenuState) :
    menuHiddenNoAnim (mobileBtnClick m) := by
  intro h
  rw [mobileBtnClick_animation, h]
  rfl

theorem menuHiddenNoAnim_mobileNavClick (m : MenuState) :
    menuHiddenNoAnim (mobileNavClick m) :=
  fun _ => rfl

theorem menuHiddenNoAnim_resizeHandler (w : Nat) (m : MenuState)
    (h : menuHiddenNoAnim m) : menuHiddenNoAnim (resizeHandler w m) := by
  by_cases h1 : 768 ≤ w
  · by_cases h2 : containsClass m.classes "hidden" = false
    · simp only [resizeHandler, h1, h2, if_true, if_pos]
      intro _
      rfl
    · simpa [resizeHandler, h1, h2] using h
  · simpa [resizeHandler, h1] using h

theorem loadInitMenu_animation (m : MenuState) :
    (loadInitMenu m).animation = m.animation := by
  simp only [loadInitMenu]
  split <;> rfl

theorem menuHiddenNoAnim_of_empty (m : MenuState) (h : m.animation = "") :
    menuHiddenNoAnim m :=
  fun _ => h

theorem menuHiddenNoAnim_runMenu (evs : List MenuEvent) (m : MenuState)
    (hm : menuHiddenNoAnim m) (hev : ∀ e ∈ evs, e ≠ MenuEvent.domInit) :
    menuHiddenNoAnim (runMenu evs m) := by
  induction evs generalizing m with
  | nil => exact hm
  | cons e rest ih =>
    have hrest : ∀ e' ∈ rest, e' ≠ MenuEvent.domInit :=
      fun e' he' => hev e' (List.mem_cons_of_mem e he')
    have hstep : menuHiddenNoAnim (menuStep e m) := by
      cases e with
      | hamburger => exact menuHiddenNoAnim_mobileBtnClick m
      | navClose => exact menuHiddenNoAnim_mobileNavClick m
      | resizeW w => exact menuHiddenNoAnim_resizeHandler w m hm
      | domInit => exact absurd rfl (hev MenuEvent.domInit (List.mem_cons_self _ _))
    exact ih (menuStep e m) hstep hrest

/-- C10 (counterexample): with the load-time initialization allowed after a
hamburger click, the invariant fails: from a hidden menu with empty
animation, a hamburger click (opening the menu, setting the fadeIn
animation) followed by the `DOMContentLoaded` handler (which re-adds
`hidden` without clearing the animation) yields a hidden menu whose
animation is the non-empty fadeIn string. -/
theorem menuInvariantCounterexample :
    containsClass (runMenu [MenuEvent.hamburger, MenuEvent.domInit]
        { classes := ["hidden"], animation := "" }).classes "hidden" = true
      ∧ (runMenu [MenuEvent.hamburger, MenuEvent.domInit]
          { classes := ["hidden"], animation := "" }).animation = fadeInAnim
      ∧ fadeInAnim ≠ ""
      ∧ ({ classes := ["hidden"], animation := "" } : MenuState).animation = "" := by
  refine ⟨rfl, rfl, ?_, rfl⟩
  decide

/-- C10 (amended): if the menu's inline animation is initially empty and the
load-time initialization runs first, then after any further sequence of
hamburger clicks, mobile nav link clicks and resize events, the menu's
animation is empty whenever it carries the `hidden` class. -/
theorem menuAnimationInvariant (m : MenuState) (evs : List MenuEvent)
    (hanim : m.animation = "") (hev : ∀ e ∈ evs, e ≠ MenuEvent.domInit) :
    menuHiddenNoAnim (runMenu evs (loadInitMenu m)) := by
  have h0 : (loadInitMenu m).animation = "" := by
    rw [loadInitMenu_animation]; exact hanim
  exact menuHiddenNoAnim_runMenu evs (loadInitMenu m)
    (menuHiddenNoAnim_of_empty _ h0) hev

/-- Witness for `menuAnimationInvariant`: initialization then a hamburger
click then a desktop-width resize. -/
theorem menuAnimationInvariant_witness :
    menuHiddenNoAnim (runMenu [MenuEvent.hamburger, MenuEvent.resizeW 800]
      (loadInitMenu { classes := [], animation := "" })) :=
  menuAnimationInvariant { classes := [], animation := "" }
    [MenuEvent.hamburger, MenuEvent.resizeW 800] rfl (by decide)

/-! ### Active-nav exclusivity (claim C1) -/

theorem countActive_removeActiveClass (ns : NavState) :
    countActive (removeActiveClass ns) = 0 := by
  simp [countActive, removeActiveClass, List.countP_eq_zero, List.mem_map,
    containsClass_removeClass]

theorem countActive_modifyIdx_le (i : Nat) (ns : NavState)
    (h : countActive ns = 0) :
    countActive (modifyIdx (fun cl => addClass cl "active-nav") i ns) ≤ 1 := by
  induction ns generalizing i with
  | nil =>
    cases i <;> simp [modifyIdx, countActive]
  | cons cl rest ih =>
    rw [countActive, List.countP_cons] at h
    rcases Nat.add_eq_zero.mp h with ⟨h1, h2⟩
    have h1' : countActive rest = 0 := h1
    have hcl : containsClass cl "active-nav" = false := by
      by_cases hc : containsClass cl "active-nav" = true
      · simp [hc] at h2
      · simpa using hc
    cases i with
    | zero =>
      simp [modifyIdx, countActive, List.countP_cons, containsClass_addClass, h1]
    | succ n =>
      have := ih n h1'
      simp only [modifyIdx, countActive, List.countP_cons, hcl] at this ⊢
      simpa using this

/-- C1: the `active-nav` marker stays mutually exclusive.  After a click on
any desktop nav link, at most one nav link carries `active-nav`, from any
prior state (the handler strips the class from every link and adds it to the
clicked one).  After the `DOMContentLoaded` handler, at most one link carries
it when the home link was found (same strip-then-add), and when the home
link is absent the handler touches no nav link, so exclusivity is
preserved. -/
theorem activeNavMutuallyExclusive :
    (∀ (ns : NavState) (i : Nat), countActive (navLinkClick i ns) ≤ 1)
      ∧ (∀ (ns : NavState) (j : Nat), countActive (loadInitNav (some j) ns) ≤ 1)
      ∧ (∀ ns : NavState, countActive ns ≤ 1 → countActive (loadInitNav none ns) ≤ 1) := by
  refine ⟨fun ns i => ?_, fun ns j => ?_, fun ns h => h⟩
  · exact countActive_modifyIdx_le i (removeActiveClass ns)
      (countActive_removeActiveClass ns)
  · exact countActive_modifyIdx_le j (removeActiveClass ns)
      (countActive_removeActiveClass ns)

/-- Witness for `activeNavMutuallyExclusive` on a concrete four-link nav
bar. -/
theorem activeNavMutuallyExclusive_witness :
    countActive (navLinkClick 2 [["nav-link", "active-nav"], ["nav-link"], ["nav-link"], ["nav-link"]]) ≤ 1
      ∧ countActive (loadInitNav (some 0) [["nav-link", "active-nav"], ["nav-link"], ["nav-link"], ["nav-link"]]) ≤ 1
      ∧ countActive (loadInitNav none [["nav-link", "active-nav"], ["nav-link"], ["nav-link"], ["nav-link"]]) ≤ 1 :=
  ⟨activeNavMutuallyExclusive.1 _ 2,
   activeNavMutuallyExclusive.2.1 _ 0,
   activeNavMutuallyExclusive.2.2 _ (by decide)⟩

/-! ### Listener registry lemmas (claims C6 and C9) -/

theorem setupListeners_spec (env : Env) (l : Listener)
    (hl : l ∈ setupListeners env) :
    l.handlerTag ≠ HandlerTag.freshAnon
      ∧ (l.target = Elem.mobileBtnE →
          env.mobileBtnPresent = true ∧ env.mobileMenuPresent = true)
      ∧ (l.target = Elem.heroDivE →
          env.heroPresent = true ∧ env.hoverHover = true)
      ∧ (l.target = Elem.franchiseBtnE → env.franchisePresent = true) := by
  simp only [setupListeners, List.mem_append] at hl
  rcases hl with ((((((h | h) | h) | h) | h) | h) | h) | h
  · split at h <;> rename_i hc
    · simp only [List.mem_singleton] at h
      subst h
      simp_all
    · simp at h
  · simp only [List.mem_map, List.mem_range] at h
    obtain ⟨i, _, rfl⟩ := h
    simp
  · simp only [List.mem_map, List.mem_range] at h
    obtain ⟨i, _, rfl⟩ := h
    simp
  · simp only [List.mem_map, List.mem_range] at h
    obtain ⟨i, _, rfl⟩ := h
    simp
  · split at h <;> rename_i hc
    · simp only [List.mem_cons, List.mem_singleton, List.not_mem_nil, or_false] at h
      rcases h with rfl | rfl <;> simp_all
    · simp at h
  · simp only [List.mem_singleton] at h
    subst h
    simp
  · split at h <;> rename_i hc
    · simp only [List.mem_singleton] at h
      subst h
      simp_all
    · simp at h
  · simp only [List.mem_singleton] at h
    subst h
    simp

theorem removeListener_of_tag_ne (regs : List Listener) (t : Elem)
    (ev : String) (tag : HandlerTag)
    (h : ∀ l ∈ regs, l.handlerTag ≠ tag) :
    removeListener regs t ev tag = regs := by
  rw [removeListener, List.filter_eq_self]
  intro l hl
  have := h l hl
  simp_all

theorem finalListeners_eq_setup (env : Env) :
    finalListeners env = setupListeners env := by
  rw [finalListeners, afterTouchBlock]
  split
  · exact removeListener_of_tag_ne _ _ _ _
      (fun l hl => (setupListeners_spec env l hl).1)
  · rfl

theorem mousemove_mem_setup (env : Env) :
    (⟨Elem.heroDivE, "mousemove", HandlerTag.heroShadowMove⟩ : Listener)
        ∈ setupListeners env
      ↔ (env.heroPresent = true ∧ env.hoverHover = true) := by
  constructor
  · intro hmem
    exact (setupListeners_spec env _ hmem).2.2.1 rfl
  · rintro ⟨h1, h2⟩
    simp only [setupListeners, List.mem_append]
    refine Or.inl (Or.inl (Or.inl (Or.inr ?_)))
    simp [h1, h2]

/-- C9: the touch-device block's `removeEventListener('mousemove',
function() {})` passes a freshly created function that was never registered,
so it removes nothing: the final registry equals the registry built at
setup, and the hero's mousemove shadow handler is attached exactly when the
hero element exists and the `(hover: hover)` media query matched — in
particular, independently of the `'ontouchstart' in window` probe. -/
theorem touchBlockNeverDetaches (env : Env) (henv : env.heroPresent = true) :
    finalListeners env = setupListeners env
      ∧ ((⟨Elem.heroDivE, "mousemove", HandlerTag.heroShadowMove⟩ : Listener)
            ∈ finalListeners env
          ↔ env.hoverHover = true) := by
  refine ⟨finalListeners_eq_setup env, ?_⟩
  rw [finalListeners_eq_setup env, mousemove_mem_setup env]
  simp [henv]

/-- Witness for `touchBlockNeverDetaches` on a touch device with hover
capability and a present hero image. -/
theorem touchBlockNeverDetaches_witness :
    finalListeners { envAll with ontouchstart := true }
        = setupListeners { envAll with ontouchstart := true }
      ∧ ((⟨Elem.heroDivE, "mousemove", HandlerTag.heroShadowMove⟩ : Listener)
            ∈ finalListeners { envAll with ontouchstart := true }
          ↔ ({ envAll with ontouchstart := true } : Env).hoverHover = true) :=
  touchBlockNeverDetaches { envAll with ontouchstart := true } rfl

/-! ### Absent-element guards (claim C6) -/

/-- C6: every guarded lookup protects its element.  When the hamburger
button or the mobile menu is missing, no listener ends up on the hamburger
button; when the hero image is missing, no listener ends up on it and setup
never writes its inline shadow; when the franchise button is missing, no
listener ends up on it; when the footer is missing, setup never writes the
footer; and when the mobile menu is missing, no event handler ever writes
the menu. -/
theorem absentElementGuards (env : Env) :
    ((env.mobileBtnPresent = false ∨ env.mobileMenuPresent = false) →
        ∀ l ∈ finalListeners env, l.target ≠ Elem.mobileBtnE)
      ∧ (env.heroPresent = false →
          (∀ l ∈ finalListeners env, l.target ≠ Elem.heroDivE)
            ∧ ∀ (y : Nat) (s : PageState),
                (setupState env y s).heroShadow = s.heroShadow)
      ∧ (env.franchisePresent = false →
          ∀ l ∈ finalListeners env, l.target ≠ Elem.franchiseBtnE)
      ∧ (env.footerPresent = false →
          ∀ (y : Nat) (s : PageState),
            (setupState env y s).footerHTML = s.footerHTML)
      ∧ (env.mobileMenuPresent = false →
          ∀ (e : Event) (s : PageState), (pageStep env e s).menu = s.menu) := by
  refine ⟨?_, ?_, ?_, ?_, ?_⟩
  · intro h l hl ht
    rw [finalListeners_eq_setup env] at hl
    have := (setupListeners_spec env l hl).2.1 ht
    rcases h with h | h <;> simp_all
  · intro h
    constructor
    · intro l hl ht
      rw [finalListeners_eq_setup env] at hl
      have := (setupListeners_spec env l hl).2.2.1 ht
      simp_all
    · intro y s
      simp only [setupState, h, Bool.and_false, if_neg Bool.false_ne_true]
      split <;> rfl
  · intro h l hl ht
    rw [finalListeners_eq_setup env] at hl
    have := (setupListeners_spec env l hl).2.2.2 ht
    simp_all
  · intro h y s
    simp only [setupState, h, if_neg Bool.false_ne_true]
    split <;> rfl
  · intro h e s
    cases e <;> simp [pageStep, h] <;> split <;> rfl

/-- Witness for `absentElementGuards` in the all-absent environment. -/
theorem absentElementGuards_witness :
    (⟨Elem.windowE, "resize", HandlerTag.resizeClose⟩ : Listener).target ≠ Elem.mobileBtnE
      ∧ (setupState envNone 2025 page0).heroShadow = page0.heroShadow
      ∧ (setupState envNone 2025 page0).footerHTML = page0.footerHTML
      ∧ (pageStep envNone Event.hamburgerClick page0).menu = page0.menu :=
  ⟨(absentElementGuards envNone).1 (Or.inl rfl) _ (by decide),
   ((absentElementGuards envNone).2.1 rfl).2 2025 page0,
   (absentElementGuards envNone).2.2.2.1 rfl 2025 page0,
   (absentElementGuards envNone).2.2.2.2 rfl Event.hamburgerClick page0⟩

/-! ### Per-component event types and frame effects (claim C3) -/

/-- C3 (counterexample): the hero image shadow component does not react to
exactly one DOM event type — on the fully populated page it registers two
(`mousemove` and `mouseleave`) — and the delivery button handler does not
mutate any element's class list or inline style: its click step is the
identity on the page state. -/
theorem componentEventTypeCounterexample :
    ((finalListeners envAll).filter
        (fun l => l.target == Elem.heroDivE)).map Listener.eventType
      = ["mousemove", "mouseleave"]
      ∧ (["mousemove", "mouseleave"] : List String).length ≠ 1
      ∧ pageStep envAll (Event.deliveryClick 0) page0 = page0 := by
  refine ⟨rfl, ?_, rfl⟩
  decide

/-- C3 (amended): on the fully populated page the hero shadow component
registers exactly the two event types `mousemove` and `mouseleave`, and the
mobile-nav-link and delivery components register only `click`; the hero
handlers write only the hero image's inline style (menu, nav links and
footer are untouched), the mobile nav link handler writes only the mobile
menu (nav links, footer and hero untouched), and the delivery and franchise
handlers write nothing at all. -/
theorem componentFrameEffects :
    ((finalListeners envAll).filter
        (fun l => l.target == Elem.heroDivE)).map Listener.eventType
      = ["mousemove", "mouseleave"]
      ∧ ((finalListeners envAll).filter
          (fun l => match l.target with
            | Elem.mobileNavLinkE _ => true
            | _ => false)).map Listener.eventType
        = ["click", "click", "click", "click"]
      ∧ ((finalListeners envAll).filter
          (fun l => match l.target with
            | Elem.deliveryBtnE _ => true
            | _ => false)).map Listener.eventType
        = ["click", "click", "click"]
      ∧ (∀ (env : Env) (s : PageState) (cx cy iw ih : ℚ),
          (pageStep env (Event.heroMousemove cx cy iw ih) s).menu = s.menu
            ∧ (pageStep env (Event.heroMousemove cx cy iw ih) s).nav = s.nav
            ∧ (pageStep env (Event.heroMousemove cx cy iw ih) s).footerHTML
              = s.footerHTML)
      ∧ (∀ (env : Env) (s : PageState),
          (pageStep env Event.heroMouseleave s).menu = s.menu
            ∧ (pageStep env Event.heroMouseleave s).nav = s.nav
            ∧ (pageStep env Event.heroMouseleave s).footerHTML = s.footerHTML)
      ∧ (∀ (env : Env) (s : PageState) (i : Nat),
          (pageStep env (Event.mobileNavLinkClick i) s).nav = s.nav
            ∧ (pageStep env (Event.mobileNavLinkClick i) s).footerHTML
              = s.footerHTML
            ∧ (pageStep env (Event.mobileNavLinkClick i) s).heroShadow
              = s.heroShadow)
      ∧ (∀ (env : Env) (s : PageState) (i : Nat),
          pageStep env (Event.deliveryClick i) s = s)
      ∧ (∀ (env : Env) (s : PageState),
          pageStep env Event.franchiseClick s = s) := by
  refine ⟨rfl, rfl, rfl, ?_, ?_, ?_, fun _ _ _ => rfl, fun _ _ => rfl⟩
  · intro env s cx cy iw ih
    simp only [pageStep]
    split <;> exact ⟨rfl, rfl, rfl⟩
  · intro env s
    simp only [pageStep]
    split <;> exact ⟨rfl, rfl, rfl⟩
  · intro env s i
    simp only [pageStep]
    split <;> exact ⟨rfl, rfl, rfl⟩

/-! ### Footer year patch (claim C8) -/

theorem isPrefixOf_append_self (p b : List Char) :
    p.isPrefixOf (p ++ b) = true := by
  induction p with
  | nil => cases b <;> rfl
  | cons c cs ih => simp [List.isPrefixOf, ih]

theorem replaceFirstList_of_not_occurs (pat rep s : List Char)
    (h : occursBool pat s = false) :
    replaceFirstList pat rep s = s := by
  induction s with
  | nil =>
    simp only [occursBool] at h
    simp only [replaceFirstList, h, cond_false]
  | cons c cs ih =>
    simp only [occursBool, Bool.or_eq_false_iff] at h
    simp only [replaceFirstList, h.1, cond_false]
    rw [ih h.2]

theorem replaceFirstList_first (pat rep : List Char) (hne : pat ≠ [])
    (a b : List Char)
    (hfirst : ∀ i, i < a.length →
      pat.isPrefixOf ((a ++ pat ++ b).drop i) = false) :
    replaceFirstList pat rep (a ++ pat ++ b) = a ++ rep ++ b := by
  induction a with
  | nil =>
    cases pat with
    | nil => exact absurd rfl hne
    | cons p ps =>
      have hpre : (p :: ps).isPrefixOf (p :: (ps ++ b)) = true :=
        isPrefixOf_append_self (p :: ps) b
      have hdrop : List.drop (p :: ps).length (p :: (ps ++ b)) = b :=
        List.drop_left (p :: ps) b
      simp only [List.nil_append, List.cons_append, List.append_eq,
        replaceFirstList, hpre, cond_true, hdrop]
  | cons c a' ih =>
    have h0 : pat.isPrefixOf ((c :: (a' ++ pat ++ b))) = false := by
      have := hfirst 0 (by simp)
      simpa using this
    have hfirst' : ∀ i, i < a'.length →
        pat.isPrefixOf ((a' ++ pat ++ b).drop i) = false := by
      intro i hi
      have := hfirst (i + 1) (by simpa using Nat.succ_lt_succ hi)
      simpa using this
    have hrec := ih hfirst'
    simp only [List.cons_append] at h0 ⊢
    simp only [replaceFirstList, h0, cond_false]
    simp only [List.append_assoc] at hrec ⊢
    rw [hrec]

theorem pageStep_footerHTML (env : Env) (e : Event) (s : PageState) :
    (pageStep env e s).footerHTML = s.footerHTML := by
  cases e <;> simp only [pageStep] <;> first
    | rfl
    | (split <;> rfl)

theorem runEvents_footerHTML (env : Env) (evs : List Event) (s : PageState) :
    (runEvents env evs s).footerHTML = s.footerHTML := by
  induction evs generalizing s with
  | nil => rfl
  | cons e rest ih =>
    show (runEvents env rest (pageStep env e s)).footerHTML = s.footerHTML
    rw [ih (pageStep env e s), pageStep_footerHTML]

theorem string_data_append (s t : String) : (s ++ t).data = s.data ++ t.data := by
  cases s
  cases t
  rfl

theorem string_mk_data (s : String) : String.mk s.data = s := by
  cases s
  rfl

/-- C8: the footer patch replaces exactly the first occurrence of `2024`.
It is applied once, outside every event handler (no event ever writes the
footer); on HTML with no occurrence of `2024` it is the identity; and on
HTML of the shape `a ++ "2024" ++ b` whose first occurrence is the explicit
one, it yields `a ++ year ++ b`, leaving `b` — and hence every later
occurrence — untouched. -/
theorem footerYearPatch :
    (∀ (y : Nat) (s : String), occursBool "2024".data s.data = false →
        footerPatch y s = s)
      ∧ (∀ (y : Nat) (a b : String),
          (∀ i, i < a.length →
            ("2024".data.isPrefixOf (((a ++ "2024" ++ b).data).drop i)) = false) →
          footerPatch y (a ++ "2024" ++ b) = a ++ toString y ++ b)
      ∧ (∀ (env : Env) (e : Event) (s : PageState),
          (pageStep env e s).footerHTML = s.footerHTML) := by
  refine ⟨?_, ?_, ?_⟩
  · intro y s h
    show String.mk (replaceFirstList "2024".data (toString y).data s.data) = s
    rw [replaceFirstList_of_not_occurs _ _ _ h, string_mk_data]
  · intro y a b hfirst
    have hdata : (a ++ "2024" ++ b).data = a.data ++ "2024".data ++ b.data := by
      rw [string_data_append, string_data_append]
    have hfirst' : ∀ i, i < a.data.length →
        ("2024".data.isPrefixOf ((a.data ++ "2024".data ++ b.data).drop i)) = false := by
      intro i hi
      have h2 := hfirst i hi
      rw [hdata] at h2
      exact h2
    show String.mk (replaceFirstList "2024".data (toString y).data
        (a ++ "2024" ++ b).data) = a ++ toString y ++ b
    rw [hdata]
    rw [replaceFirstList_first "2024".data (toString y).data (by decide) a.data b.data
      hfirst']
    have : (a ++ toString y ++ b).data = a.data ++ (toString y).data ++ b.data := by
      rw [string_data_append, string_data_append]
    rw [← this, string_mk_data]
  · exact pageStep_footerHTML

/-- Witness for `footerYearPatch`: a footer with a second `2024` after the
first, patched to 2025, and a footer with no occurrence at all. -/
theorem footerYearPatch_witness :
    footerPatch 2025 "no year here" = "no year here"
      ∧ footerPatch 2025 ("Copyright " ++ "2024" ++ " Popper Poi, est. 2024")
        = "Copyright " ++ toString 2025 ++ " Popper Poi, est. 2024"
      ∧ (pageStep envAll Event.hamburgerClick page0).footerHTML
        = page0.footerHTML :=
  ⟨footerYearPatch.1 2025 "no year here" (by decide),
   footerYearPatch.2.1 2025 "Copyright " " Popper Poi, est. 2024" (by decide),
   footerYearPatch.2.2 envAll Event.hamburgerClick page0⟩

/-! ### Reversibility (claim C5) -/

/-- C5 (counterexample): not every operation is reversible.  On the fully
populated page, setup changes the footer from its 2024 text to the 2025
text, and no sequence of browser events ever brings the page state back to
its pre-change value, because no event handler writes the footer. -/
theorem operationsNotAllReversible :
    (setupState envAll 2025 page0).footerHTML = "Copyright 2025 Popper Poi"
      ∧ page0.footerHTML = "Copyright 2024 Popper Poi"
      ∧ ("Copyright 2025 Popper Poi" : String) ≠ "Copyright 2024 Popper Poi"
      ∧ ¬ ∃ evs : List Event,
          runEvents envAll evs (setupState envAll 2025 page0) = page0 := by
  refine ⟨rfl, rfl, by decide, ?_⟩
  rintro ⟨evs, hevs⟩
  have hfoot := runEvents_footerHTML envAll evs (setupState envAll 2025 page0)
  rw [hevs] at hfoot
  exact absurd hfoot (by decide)

/-- C5 (amended): the mobile-menu operations are reversible — a close by a
mobile nav link or by a desktop-width resize of an open, handler-consistent
menu is undone by one hamburger click, and a hamburger click from any
handler-consistent state is undone by a second one — but the footer
copyright-year replacement is not an event-handler effect and is
irreversible: no event ever writes the footer. -/
theorem reversibleExceptFooter :
    (∀ m : MenuState, containsClass m.classes "hidden" = false →
        m.animation = fadeInAnim →
        containsClass (mobileBtnClick (mobileNavClick m)).classes "hidden" = false
          ∧ (mobileBtnClick (mobileNavClick m)).animation = fadeInAnim)
      ∧ (∀ (m : MenuState) (w : Nat), 768 ≤ w →
          containsClass m.classes "hidden" = false →
          m.animation = fadeInAnim →
          containsClass (mobileBtnClick (resizeHandler w m)).classes "hidden" = false
            ∧ (mobileBtnClick (resizeHandler w m)).animation = fadeInAnim)
      ∧ (∀ m : MenuState, menuConsistent m →
          containsClass (mobileBtnClick (mobileBtnClick m)).classes "hidden"
              = containsClass m.classes "hidden"
            ∧ (mobileBtnClick (mobileBtnClick m)).animation = m.animation)
      ∧ (∀ (env : Env) (evs : List Event) (s : PageState),
          (runEvents env evs s).footerHTML = s.footerHTML) := by
  refine ⟨?_, ?_, ?_, runEvents_footerHTML⟩
  · intro m _ _
    have hmem : containsClass (mobileBtnClick (mobileNavClick m)).classes "hidden"
        = false := by
      rw [containsClass_mobileBtnClick]
      simp [mobileNavClick, containsClass_addClass]
    refine ⟨hmem, ?_⟩
    rw [mobileBtnClick_animation, hmem]
    rfl
  · intro m w hw hc _
    have hclosed : resizeHandler w m
        = { classes := addClass m.classes "hidden", animation := "" } := by
      simp [resizeHandler, hw, hc]
    have hmem : containsClass (mobileBtnClick (resizeHandler w m)).classes "hidden"
        = false := by
      rw [containsClass_mobileBtnClick, hclosed]
      simp [containsClass_addClass]
    refine ⟨hmem, ?_⟩
    rw [mobileBtnClick_animation, hmem]
    rfl
  · intro m hm
    exact ⟨mobileBtnClick_twice_mem m, mobileBtnClick_twice_anim m hm⟩

/-- Witness for `reversibleExceptFooter` at an open menu with the fadeIn
animation and a concrete event sequence on the populated page. -/
theorem reversibleExceptFooter_witness :
    (containsClass (mobileBtnClick (mobileNavClick
          { classes := ["mobile-menu"], animation := fadeInAnim })).classes "hidden" = false
        ∧ (mobileBtnClick (mobileNavClick
            { classes := ["mobile-menu"], animation := fadeInAnim })).animation = fadeInAnim)
      ∧ (containsClass (mobileBtnClick (resizeHandler 800
            { classes := ["mobile-menu"], animation := fadeInAnim })).classes "hidden" = false
          ∧ (mobileBtnClick (resizeHandler 800
              { classes := ["mobile-menu"], animation := fadeInAnim })).animation = fadeInAnim)
      ∧ (containsClass (mobileBtnClick (mobileBtnClick
            { classes := ["hidden"], animation := "" })).classes "hidden"
            = containsClass ({ classes := ["hidden"], animation := "" } : MenuState).classes "hidden"
          ∧ (mobileBtnClick (mobileBtnClick
              { classes := ["hidden"], animation := "" })).animation
            = ({ classes := ["hidden"], animation := "" } : MenuState).animation)
      ∧ (runEvents envAll [Event.hamburgerClick, Event.resize 800] page0).footerHTML
        = page0.footerHTML :=
  ⟨reversibleExceptFooter.1 _ rfl rfl,
   reversibleExceptFooter.2.1 _ 800 (by decide) rfl rfl,
   reversibleExceptFooter.2.2.1 _ rfl,
   reversibleExceptFooter.2.2.2 envAll [Event.hamburgerClick, Event.resize 800] page0⟩

end PopperPoi
